import Mathlib

/-!
Shallow embedding of the malgo binding layer (Go file `mini_al.go`, the repository's
source under `src/unnamed/part_000`) together with the parts of the repository that
the binding calls but that are not under `src/` (the vendored mini_al C library and
the Go file declaring `FormatType`, `DeviceType`, `Result` and `errorFromResult`);
those parts are modelled from the specification and are marked as such.

Machine integers (`uint32` / `mal_uint32`) are modelled as `Nat` with an explicit
`% 2^32` at every point where the Go code performs a 32-bit cast or 32-bit
arithmetic that may wrap.
-/

/-- Go `uint32` cast / 32-bit wrap-around. -/
def u32 (n : Nat) : Nat := n % 2^32

/-- Modelled from the spec: the `FormatType` constants are declared in a Go file of
this repository that is not under `src/`; §6 gives the enumeration
{unsigned8, signed16, signed24, signed32, float32}. -/
inductive FormatType where
  | u8
  | s16
  | s24
  | s32
  | f32
deriving DecidableEq

/-- Modelled from the spec: `mal_get_bytes_per_sample` lives in the vendored C
library (`malgo.h`), not under `src/`; §6 states the byte width is a pure function
of the format, and the format names give the widths: unsigned8 → 1 byte,
signed16 → 2, signed24 → 3, signed32 → 4, float32 → 4. -/
def mal_get_bytes_per_sample : FormatType → Nat
  | .u8 => 1
  | .s16 => 2
  | .s24 => 3
  | .s32 => 4
  | .f32 => 4

/-- Modelled from the spec: the `DeviceType` constants (kind: Playback | Capture)
are declared in a Go file of this repository that is not under `src/`. -/
inductive DeviceType where
  | Playback
  | Capture
deriving DecidableEq

/-- The fields of the C `mal_device` struct that the Go binding reads
(`pDevice.channels`, `pDevice.format`, and the accessors at the bottom of
`mini_al.go`). -/
structure MalDevice where
  deviceType : DeviceType
  format : FormatType
  channels : Nat
  sampleRate : Nat

/-- `RecvProc` (src line 109): `func(framecount uint32, psamples []byte)`.
The Go handler returns nothing; its observable effect is abstracted into a
result of an arbitrary type `ρ`, so theorems quantify over every handler. -/
def RecvProc (ρ : Type) : Type := Nat → List Nat → ρ

/-- `SendProc` (src line 112): `func(framecount uint32, psamples []byte) uint32`. -/
def SendProc : Type := Nat → List Nat → Nat

/-- `StopProc` (src line 115): `func()`, with its effect abstracted into `σ`. -/
def StopProc (σ : Type) : Type := Unit → σ

/-- The slice bound both callbacks compute (src lines 128-130 and 138-140):
`sampleCount := uint32(frameCount) * uint32(pDevice.channels)` (32-bit multiply,
wraps), `sizeInBytes := uint32(C.mal_get_bytes_per_sample(pDevice.format))`, and
the slice bound `sampleCount*sizeInBytes` (32-bit multiply, wraps). -/
def routerByteLen (pDevice : MalDevice) (frameCount : Nat) : Nat :=
  u32 (u32 (u32 frameCount * u32 pDevice.channels) * u32 (mal_get_bytes_per_sample pDevice.format))

/-- `goRecvCallback` (src lines 126-133).  The global `recvHandler` is passed
explicitly.  `pSamples` is the backend's byte buffer, modelled as the memory
function offset ↦ byte.  The Go code casts `pSamples` to `*[1 << 20]byte` and
slices `[0 : sampleCount*sizeInBytes]`; a slice bound beyond `1 << 20` panics,
modelled by the outer `none`.  `some none` means the handler was `nil` and
nothing happened; `some (some e)` means the handler ran with effect `e`. -/
def goRecvCallback {ρ : Type} (recvHandler : Option (RecvProc ρ)) (pDevice : MalDevice)
    (frameCount : Nat) (pSamples : Nat → Nat) : Option (Option ρ) :=
  match recvHandler with
  | none => some none
  | some h =>
      if routerByteLen pDevice frameCount ≤ 2^20 then
        some (some (h (u32 frameCount) ((List.range (routerByteLen pDevice frameCount)).map pSamples)))
      else
        none

/-- `goSendCallback` (src lines 136-144).  The named return `r C.mal_uint32`
defaults to `0`, so a `nil` handler yields `some 0` without touching the buffer;
the handler's returned frame count is cast back through `C.mal_uint32`; an
out-of-bounds slice panics (`none`). -/
def goSendCallback (sendHandler : Option SendProc) (pDevice : MalDevice)
    (frameCount : Nat) (pSamples : Nat → Nat) : Option Nat :=
  match sendHandler with
  | none => some 0
  | some h =>
      if routerByteLen pDevice frameCount ≤ 2^20 then
        some (u32 (h (u32 frameCount) ((List.range (routerByteLen pDevice frameCount)).map pSamples)))
      else
        none

/-- `goStopCallback` (src lines 147-151): runs the stop handler when one is
registered, otherwise does nothing (`none`). -/
def goStopCallback {σ : Type} (stopHandler : Option (StopProc σ)) : Option σ :=
  stopHandler.map (fun h => h ())

/-- Modelled from the spec: the result taxonomy of §7; the `Result` codes and their
names are declared in a Go file of this repository that is not under `src/`. -/
inductive Result where
  | Success
  | NoBackendAvailable
  | InvalidConfig
  | NotInitialized
  | DeviceBusy
  | BackendError
  | EnumerationFailed
deriving DecidableEq

/-- Modelled from the spec: `errorFromResult` is declared in a Go file of this
repository that is not under `src/`; per §7 every lifecycle operation returns a
result indicating success (`nil` error, here `none`) or one of the error kinds. -/
def errorFromResult (r : Result) : Option Result :=
  match r with
  | .Success => none
  | r => some r

/-- The lifecycle states of §4.2: `Uninitialized -> Initialized -> Started`. -/
inductive DeviceState where
  | Uninitialized
  | Initialized
  | Started
deriving DecidableEq

/-- The C `mal_device`'s lifecycle-relevant state, with a counter of backend
stream-resource releases so that double-free is observable. -/
structure BackendDevice where
  state : DeviceState
  freeCount : Nat
deriving DecidableEq

/-- Modelled from the spec: `mal_device_start` lives in the vendored C library,
not under `src/`; per §4.2 it transitions Initialized → Started, fails with
`DeviceBusy` if already started, and fails with `NotInitialized` if called before
Init, leaving the state unchanged on failure. -/
def mal_device_start (d : BackendDevice) : Result × BackendDevice :=
  match d.state with
  | .Uninitialized => (.NotInitialized, d)
  | .Started => (.DeviceBusy, d)
  | .Initialized => (.Success, { d with state := .Started })

/-- Modelled from the spec: `mal_device_uninit` lives in the vendored C library,
not under `src/`; per §4.2 it is always safe, implicitly stops if started,
releases backend stream resources (here: bumps `freeCount`) when the device holds
any, and is idempotent — from `Uninitialized` it has nothing to release. -/
def mal_device_uninit (d : BackendDevice) : BackendDevice :=
  match d.state with
  | .Uninitialized => d
  | _ => { state := .Uninitialized, freeCount := d.freeCount + 1 }

/-- `Device.Start` (src lines 285-289): calls `mal_device_start` and converts the
result through `errorFromResult`. -/
def Device.Start (d : BackendDevice) : Option Result × BackendDevice :=
  (errorFromResult (mal_device_start d).1, (mal_device_start d).2)

/-- `Device.Uninit` (src lines 253-255): calls `mal_device_uninit`; the Go
function's type returns nothing, so no error channel exists here either. -/
def Device.Uninit (d : BackendDevice) : BackendDevice :=
  mal_device_uninit d

/-- Events during `Start` on a Playback device, for ordering claims. -/
inductive StartEvent where
  | sendHandlerPull
  | hardwareStart
  | startReturn
deriving DecidableEq

/-- Modelled from the spec: the body of `mal_device_start` for a Playback device
lives in the vendored C library, not under `src/`; per §4.2 (and the doc comment
at src lines 280-284) a successful start from `Initialized` synchronously pulls
one full buffer of initial samples from the send handler, then begins hardware
playback, then returns; a failed start touches neither the handler nor the
hardware before returning. -/
def mal_device_start_playback_events (d : BackendDevice) : List StartEvent :=
  match d.state with
  | .Initialized => [.sendHandlerPull, .hardwareStart, .startReturn]
  | _ => [.startReturn]

/-- `DeviceID` (src line 42): an opaque fixed-size byte array. -/
def DeviceID : Type := List Nat

/-- `DeviceInfo` (src lines 50-59), with byte arrays as lists and `uint32`
fields as `Nat`. -/
structure DeviceInfo where
  id : DeviceID
  name : List Nat
  formatCount : Nat
  formats : List Nat
  minChannels : Nat
  maxChannels : Nat
  minSampleRate : Nat
  maxSampleRate : Nat

/-- Modelled from the spec: `ShareMode` constants {shared | exclusive} (§3) are
declared in a Go file of this repository that is not under `src/`. -/
inductive ShareMode where
  | shared
  | exclusive

/-- Modelled from the spec: `PerformanceProfile` constants
{lowLatency | conservative} (§3) are declared outside `src/`. -/
inductive PerformanceProfile where
  | lowLatency
  | conservative

/-- `AlsaDeviceConfig` (src lines 71-73). -/
structure AlsaDeviceConfig where
  noMMap : Nat

/-- `PulseDeviceConfig` (src lines 76-78), the stream name being a C pointer. -/
structure PulseDeviceConfig where
  streamName : Option Nat

/-- `DeviceConfig` (src lines 81-97); the three callback fields are opaque C
function pointers. -/
structure DeviceConfig where
  format : FormatType
  channels : Nat
  sampleRate : Nat
  channelMap : List Nat
  bufferSizeInFrames : Nat
  periods : Nat
  shareMode : ShareMode
  performanceProfile : PerformanceProfile
  onRecvCallback : Option Nat
  onSendCallback : Option Nat
  onStopCallback : Option Nat
  alsa : AlsaDeviceConfig
  pulse : PulseDeviceConfig

/-- `DeviceID.cptr` (src lines 44-47): reinterprets the `*DeviceID` receiver as a
`*C.mal_device_id` without any substitution, so a `nil` receiver yields a `nil`
C pointer; pointers are modelled as `Option`. -/
def DeviceID.cptr (d : Option DeviceID) : Option DeviceID :=
  d

/-- The argument tuple the binding hands to `C.mal_device_init`
(src line 245). -/
structure MalDeviceInitCall where
  kind : DeviceType
  deviceID : Option DeviceID
  config : DeviceConfig

/-- `Device.Init` (src lines 240-248): converts each argument with its `cptr`
cast and passes them to `C.mal_device_init`; the call it issues is the
observable we model. -/
def Device.Init (kind : DeviceType) (pdeviceid : Option DeviceID) (pconfig : DeviceConfig) :
    MalDeviceInitCall :=
  { kind := kind, deviceID := DeviceID.cptr pdeviceid, config := pconfig }

/-- `Device.Devices` (src lines 189-228): the backend call
`C.mal_context_get_devices` fills two arrays of device-info pointers and two
counts, modelled as the lists `pinfo`/`cinfo` (entries `none` for `nil`
pointers) and `pcount`/`ccount`; on `Success` the binding copies the non-nil
entries of the first `pcount` (resp. `ccount`) slots into a fresh slice and
returns it with a `nil` error; otherwise it returns a `nil` slice and the
converted error. -/
def Device.Devices (kind : DeviceType) (ret : Result)
    (pinfo cinfo : List (Option DeviceInfo)) (pcount ccount : Nat) :
    Option (List DeviceInfo) × Option Result :=
  if ret = Result.Success then
    let res : List DeviceInfo :=
      match kind with
      | .Playback => ((pinfo.take pcount).filterMap id)
      | .Capture => ((cinfo.take ccount).filterMap id)
    (some res, none)
  else
    (none, errorFromResult ret)

/-- The package-global handler variables (src lines 118-123): one `recvHandler`,
one `sendHandler`, one `stopHandler` for the whole package, shared by every
`Device`. -/
structure Handlers (ρ σ : Type) where
  recvHandler : Option (RecvProc ρ)
  sendHandler : Option SendProc
  stopHandler : Option (StopProc σ)

/-- `Device.SetRecvCallback` (src lines 258-261): unconditionally overwrites the
package-global `recvHandler` (and registers the C trampoline on `d.device`); it
never inspects the device's state and returns nothing. -/
def Device.SetRecvCallback {ρ σ : Type} (g : Handlers ρ σ) (d : BackendDevice)
    (proc : RecvProc ρ) : Handlers ρ σ :=
  { g with recvHandler := some proc }

/-- `Device.SetSendCallback` (src lines 264-267): unconditionally overwrites the
package-global `sendHandler`; no state check, no return value. -/
def Device.SetSendCallback {ρ σ : Type} (g : Handlers ρ σ) (d : BackendDevice)
    (proc : SendProc) : Handlers ρ σ :=
  { g with sendHandler := some proc }

/-- `Device.SetStopCallback` (src lines 270-273): unconditionally overwrites the
package-global `stopHandler`; no state check, no return value. -/
def Device.SetStopCallback {ρ σ : Type} (g : Handlers ρ σ) (d : BackendDevice)
    (proc : StopProc σ) : Handlers ρ σ :=
  { g with stopHandler := some proc }

/-- Every sample format has a positive byte width. -/
theorem one_le_bytes_per_sample (f : FormatType) : 1 ≤ mal_get_bytes_per_sample f := by
  cases f <;> decide

/-- Every sample format's byte width fits in a `uint32`. -/
theorem bytes_per_sample_lt (f : FormatType) : mal_get_bytes_per_sample f < 2^32 := by
  cases f <;> decide

/-- C10: a backend callback arriving with no registered handler of its kind is a
safe no-op: `goRecvCallback` performs nothing (`some none`), `goSendCallback`
returns 0 frames produced, and `goStopCallback` does nothing; no `nil` handler is
ever dereferenced (the `nil` case never reaches the handler call or the slice). -/
theorem nil_handler_is_noop {ρ σ : Type} (dev : MalDevice) (F : Nat) (mem : Nat → Nat) :
    goRecvCallback (ρ := ρ) none dev F mem = some none
    ∧ goSendCallback none dev F mem = some 0
    ∧ goStopCallback (σ := σ) none = none :=
  ⟨rfl, rfl, rfl⟩

/-- When the true product F*C*B fits in the router's 1 MiB window, none of the
32-bit casts wrap and the computed slice bound is exactly F*C*B. -/
theorem routerByteLen_eq (dev : MalDevice) (F : Nat) (hF : F < 2^32)
    (hC : dev.channels < 2^32)
    (hB : F * dev.channels * mal_get_bytes_per_sample dev.format ≤ 2^20) :
    routerByteLen dev F = F * dev.channels * mal_get_bytes_per_sample dev.format := by
  have hFC : F * dev.channels < 2^32 := by
    have h1 : F * dev.channels ≤ F * dev.channels * mal_get_bytes_per_sample dev.format := by
      simpa using Nat.mul_le_mul_left (F * dev.channels) (one_le_bytes_per_sample dev.format)
    exact lt_of_le_of_lt (le_trans h1 hB) (by norm_num)
  have hFCB : F * dev.channels * mal_get_bytes_per_sample dev.format < 2^32 :=
    lt_of_le_of_lt hB (by norm_num)
  unfold routerByteLen u32
  rw [Nat.mod_eq_of_lt hF, Nat.mod_eq_of_lt hC, Nat.mod_eq_of_lt hFC,
    Nat.mod_eq_of_lt (bytes_per_sample_lt dev.format), Nat.mod_eq_of_lt hFCB]

/-- C1 fails as stated: with format unsigned8 (1 byte per sample), 4 channels and
frame count 2^30, the 32-bit product frameCount*channels wraps to 0, so the recv
handler is invoked with an empty byte buffer although F*C*B = 2^32 ≠ 0. -/
theorem router_buffer_extent_counterexample :
    goRecvCallback (some fun _ bytes => bytes.length)
        { deviceType := DeviceType.Capture, format := FormatType.u8,
          channels := 4, sampleRate := 48000 }
        (2^30) (fun _ => 0) = some (some 0)
    ∧ 2^30 * 4 * mal_get_bytes_per_sample FormatType.u8 ≠ 0 := by
  exact ⟨rfl, by decide⟩

/-- C1 (amended): whenever F*C*B ≤ 2^20 — the fixed 1 MiB window the router casts
the backend's buffer pointer to, within which no 32-bit wrap can occur — an
invocation of the Send or the Recv callback passes the registered handler a byte
buffer of length exactly F*C*B, where C is the device's negotiated channel count
and B the byte width of its format, for each FormatType.  (Beyond the window the
router panics on the slice bound; on uint32 overflow of F*C*B it passes a
wrapped-length buffer.) -/
theorem router_buffer_extent {ρ : Type} (hr : RecvProc ρ) (hs : SendProc)
    (dev : MalDevice) (F : Nat) (mem : Nat → Nat)
    (hF : F < 2^32) (hC : dev.channels < 2^32)
    (hB : F * dev.channels * mal_get_bytes_per_sample dev.format ≤ 2^20) :
    ((List.range (F * dev.channels * mal_get_bytes_per_sample dev.format)).map mem).length
        = F * dev.channels * mal_get_bytes_per_sample dev.format
    ∧ goRecvCallback (some hr) dev F mem
        = some (some (hr F
            ((List.range (F * dev.channels * mal_get_bytes_per_sample dev.format)).map mem)))
    ∧ goSendCallback (some hs) dev F mem
        = some (u32 (hs F
            ((List.range (F * dev.channels * mal_get_bytes_per_sample dev.format)).map mem))) := by
  have key := routerByteLen_eq dev F hF hC hB
  refine ⟨by simp, ?_, ?_⟩
  · show (if routerByteLen dev F ≤ 2^20 then
        some (some (hr (u32 F) ((List.range (routerByteLen dev F)).map mem))) else none) = _
    rw [key, if_pos hB, show u32 F = F from Nat.mod_eq_of_lt hF]
  · show (if routerByteLen dev F ≤ 2^20 then
        some (u32 (hs (u32 F) ((List.range (routerByteLen dev F)).map mem))) else none) = _
    rw [key, if_pos hB, show u32 F = F from Nat.mod_eq_of_lt hF]

/-- Witness for the amended C1: stereo signed16, 2 frames — the recv handler
observes a buffer of exactly 2*2*2 = 8 bytes. -/
theorem router_buffer_extent_witness :
    2 * 2 * mal_get_bytes_per_sample FormatType.s16 ≤ 2^20
    ∧ goRecvCallback (some fun _ bytes => bytes.length)
        { deviceType := DeviceType.Capture, format := FormatType.s16,
          channels := 2, sampleRate := 44100 }
        2 (fun _ => 7) = some (some 8) := by
  refine ⟨by decide, ?_⟩
  have h := router_buffer_extent (fun _ bytes => bytes.length) (fun _ _ => 0)
      { deviceType := DeviceType.Capture, format := FormatType.s16,
        channels := 2, sampleRate := 44100 }
      2 (fun _ => 7) (by norm_num) (by norm_num) (by decide)
  rw [h.2.1]
  simp [mal_get_bytes_per_sample]

/-- C2: when the Send callback runs the registered handler, the frame count the
handler returns (a `uint32`, hence < 2^32) is forwarded unmodified to the backend
as the callback's return value; this holds for every handler — in particular one
returning fewer frames than requested (underrun) — and the router returns
normally (`some`) rather than crashing. -/
theorem send_return_forwarded (hs : SendProc) (dev : MalDevice) (F : Nat) (mem : Nat → Nat)
    (hF : F < 2^32) (hC : dev.channels < 2^32)
    (hB : F * dev.channels * mal_get_bytes_per_sample dev.format ≤ 2^20)
    (hret : hs F ((List.range (F * dev.channels * mal_get_bytes_per_sample dev.format)).map mem)
        < 2^32) :
    goSendCallback (some hs) dev F mem
      = some (hs F
          ((List.range (F * dev.channels * mal_get_bytes_per_sample dev.format)).map mem)) := by
  have key := routerByteLen_eq dev F hF hC hB
  show (if routerByteLen dev F ≤ 2^20 then
      some (u32 (hs (u32 F) ((List.range (routerByteLen dev F)).map mem))) else none) = _
  rw [key, if_pos hB, show u32 F = F from Nat.mod_eq_of_lt hF]
  exact congrArg some (Nat.mod_eq_of_lt hret)

/-- Witness for C2: mono signed16, 2 frames requested, handler produces only 1
frame (underrun) — the router returns exactly 1. -/
theorem send_return_forwarded_witness :
    (1 : Nat) < 2
    ∧ goSendCallback (some fun _ _ => 1)
        { deviceType := DeviceType.Playback, format := FormatType.s16,
          channels := 1, sampleRate := 44100 }
        2 (fun _ => 0) = some 1 := by
  refine ⟨by decide, ?_⟩
  exact send_return_forwarded (fun _ _ => 1)
    { deviceType := DeviceType.Playback, format := FormatType.s16,
      channels := 1, sampleRate := 44100 }
    2 (fun _ => 0) (by norm_num) (by norm_num) (by decide) (by decide)

/-- C3: `Start` on a device that has not been initialized fails with the
`NotInitialized` error and leaves the device unchanged, still Uninitialized. -/
theorem start_before_init_fails (d : BackendDevice)
    (hd : d.state = DeviceState.Uninitialized) :
    Device.Start d = (some Result.NotInitialized, d)
    ∧ (Device.Start d).2.state = DeviceState.Uninitialized := by
  obtain ⟨s, n⟩ := d
  cases s
  · exact ⟨rfl, rfl⟩
  · exact nomatch hd
  · exact nomatch hd

/-- Witness for C3. -/
theorem start_before_init_fails_witness :
    Device.Start { state := DeviceState.Uninitialized, freeCount := 0 }
      = (some Result.NotInitialized, { state := DeviceState.Uninitialized, freeCount := 0 }) :=
  (start_before_init_fails { state := DeviceState.Uninitialized, freeCount := 0 } rfl).1

/-- C4: starting an Initialized device succeeds (nil error) and moves it to
Started; a second `Start` without an intervening `Stop` fails with `DeviceBusy`
and leaves the device in the Started state unchanged. -/
theorem double_start_busy (d : BackendDevice) (hd : d.state = DeviceState.Initialized) :
    (Device.Start d).1 = none
    ∧ (Device.Start d).2.state = DeviceState.Started
    ∧ Device.Start (Device.Start d).2 = (some Result.DeviceBusy, (Device.Start d).2) := by
  obtain ⟨s, n⟩ := d
  cases s
  · exact nomatch hd
  · exact ⟨rfl, rfl, rfl⟩
  · exact nomatch hd

/-- Witness for C4. -/
theorem double_start_busy_witness :
    Device.Start (Device.Start { state := DeviceState.Initialized, freeCount := 0 }).2
      = (some Result.DeviceBusy,
         (Device.Start { state := DeviceState.Initialized, freeCount := 0 }).2) :=
  (double_start_busy { state := DeviceState.Initialized, freeCount := 0 } rfl).2.2

/-- C5: `Uninit` is safe in any state, returns no error by its very type,
implicitly stops a started device, and is idempotent: the second call changes
nothing, backend resources are released at most once across the two calls, and
exactly once whenever the device actually held a stream (any state other than
Uninitialized). -/
theorem uninit_idempotent (d : BackendDevice) :
    (Device.Uninit d).state = DeviceState.Uninitialized
    ∧ Device.Uninit (Device.Uninit d) = Device.Uninit d
    ∧ (Device.Uninit (Device.Uninit d)).freeCount ≤ d.freeCount + 1
    ∧ (d.state ≠ DeviceState.Uninitialized →
        (Device.Uninit (Device.Uninit d)).freeCount = d.freeCount + 1) := by
  obtain ⟨s, n⟩ := d
  cases s <;> simp [Device.Uninit, mal_device_uninit]

/-- Witness for C5: a started device, uninitialized twice, is freed exactly
once. -/
theorem uninit_idempotent_witness :
    Device.Uninit (Device.Uninit { state := DeviceState.Started, freeCount := 0 })
      = Device.Uninit { state := DeviceState.Started, freeCount := 0 }
    ∧ (Device.Uninit (Device.Uninit { state := DeviceState.Started, freeCount := 0 })).freeCount
      = 1 :=
  ⟨(uninit_idempotent { state := DeviceState.Started, freeCount := 0 }).2.1,
   (uninit_idempotent { state := DeviceState.Started, freeCount := 0 }).2.2.2 (by decide)⟩

/-- C6: when the backend enumeration call succeeds and reports zero devices of
the requested kind, `Devices` returns an empty slice and a nil error. -/
theorem enumerate_empty_ok (kind : DeviceType) (pinfo cinfo : List (Option DeviceInfo))
    (pcount ccount : Nat)
    (hp : kind = DeviceType.Playback → pcount = 0)
    (hc : kind = DeviceType.Capture → ccount = 0) :
    Device.Devices kind Result.Success pinfo cinfo pcount ccount = (some [], none) := by
  cases kind
  · have h0 := hp rfl
    subst h0
    simp [Device.Devices]
  · have h0 := hc rfl
    subst h0
    simp [Device.Devices]

/-- Witness for C6. -/
theorem enumerate_empty_ok_witness :
    Device.Devices DeviceType.Playback Result.Success [] [] 0 0 = (some [], none) :=
  enumerate_empty_ok DeviceType.Playback [] [] 0 0 (fun _ => rfl) (fun _ => rfl)

/-- C7 fails as stated: with the package-global send handler registered and the
device in the Started state, `SetSendCallback` is not rejected — its type has no
error channel at all — and it replaces the previously registered handler: before
the call the stored handler returns 1 on input (0, []), afterwards it returns 2. -/
theorem set_callback_while_started_counterexample :
    (({ recvHandler := none, sendHandler := some fun _ _ => 1, stopHandler := none } :
        Handlers Nat Nat).sendHandler.map (fun f => f 0 [])) = some 1
    ∧ ((Device.SetSendCallback
        ({ recvHandler := none, sendHandler := some fun _ _ => 1, stopHandler := none } :
          Handlers Nat Nat)
        { state := DeviceState.Started, freeCount := 0 }
        (fun _ _ => 2)).sendHandler.map (fun f => f 0 [])) = some 2
    ∧ (some 2 : Option Nat) ≠ some 1 := by
  exact ⟨rfl, rfl, by decide⟩

/-- C7 (amended): the package holds exactly one recv, one send and one stop
handler slot, global to the package and shared by every device; each setter
unconditionally overwrites its own slot, leaves the other two unchanged, behaves
identically whichever device it is invoked on and whatever that device's state —
in particular a call while the device is started is not rejected with
`DeviceBusy` (the setters return no error at all) and does replace the
previously registered handler. -/
theorem set_callback_global_slots {ρ σ : Type} (g : Handlers ρ σ) (d e : BackendDevice)
    (pr : RecvProc ρ) (ps : SendProc) (pt : StopProc σ) :
    Device.SetRecvCallback g d pr
        = { recvHandler := some pr, sendHandler := g.sendHandler,
            stopHandler := g.stopHandler }
    ∧ Device.SetSendCallback g d ps
        = { recvHandler := g.recvHandler, sendHandler := some ps,
            stopHandler := g.stopHandler }
    ∧ Device.SetStopCallback g d pt
        = { recvHandler := g.recvHandler, sendHandler := g.sendHandler,
            stopHandler := some pt }
    ∧ Device.SetRecvCallback g d pr = Device.SetRecvCallback g e pr
    ∧ Device.SetSendCallback g d ps = Device.SetSendCallback g e ps
    ∧ Device.SetStopCallback g d pt = Device.SetStopCallback g e pt :=
  ⟨rfl, rfl, rfl, rfl, rfl, rfl⟩

/-- C8: `Init` with a nil device identifier passes a null identifier to
`mal_device_init` — `cptr` on a nil receiver yields a nil C pointer and no
enumerated device is ever substituted — for every kind and config. -/
theorem init_nil_selects_default (kind : DeviceType) (pconfig : DeviceConfig) :
    (Device.Init kind none pconfig).deviceID = none
    ∧ Device.Init kind none pconfig
        = { kind := kind, deviceID := none, config := pconfig } :=
  ⟨rfl, rfl⟩

/-- C9: a successful `Start` on an Initialized Playback device pulls one full
buffer from the send handler strictly before hardware playback begins and
strictly before `Start` returns. -/
theorem playback_start_pull_first (d : BackendDevice)
    (hd : d.state = DeviceState.Initialized) :
    StartEvent.sendHandlerPull ∈ mal_device_start_playback_events d
    ∧ (mal_device_start_playback_events d).indexOf StartEvent.sendHandlerPull
        < (mal_device_start_playback_events d).indexOf StartEvent.hardwareStart
    ∧ (mal_device_start_playback_events d).indexOf StartEvent.sendHandlerPull
        < (mal_device_start_playback_events d).indexOf StartEvent.startReturn := by
  have h1 : mal_device_start_playback_events d
      = [StartEvent.sendHandlerPull, StartEvent.hardwareStart, StartEvent.startReturn] := by
    unfold mal_device_start_playback_events
    rw [hd]
  rw [h1]
  decide

/-- Witness for C9. -/
theorem playback_start_pull_first_witness :
    (mal_device_start_playback_events
        { state := DeviceState.Initialized, freeCount := 0 }).indexOf
        StartEvent.sendHandlerPull
      < (mal_device_start_playback_events
        { state := DeviceState.Initialized, freeCount := 0 }).indexOf
        StartEvent.hardwareStart :=
  (playback_start_pull_first { state := DeviceState.Initialized, freeCount := 0 } rfl).2.1
